import Mathlib

/-!
Shallow embedding of the AI Planet workflow backend — the services
`embeddings_service.py`, `doc_ingest.py`, `workflow_engine.py` and the
endpoint `api/V1/workflows.py`, exactly as their code appears in
`docs/Source_Code_Documentation.md`.

Modelling conventions:
* Python strings are Lean `String`s; character-level slicing goes
  through `String.data` (Python slices act on characters).
* The floats produced on the deterministic dummy-embedding path are
  modelled by `ℚ`: every operation on that path (`int(chunk,16)/16**8`,
  `- 0.5`, `* 2`) is exact in IEEE binary64, so `ℚ` is a faithful model.
* Module-level provider globals (`has_openai_key`, `has_gemini_key`,
  `settings.EMBEDDING_PROVIDER`, the client objects) become an explicit
  `ProviderConfig` record threaded through the functions; the external
  network calls are fields of that record.
* `hashlib.md5(...).hexdigest()` is implemented in full (RFC 1321) on
  the UTF-8 bytes of the input, producing 32 lowercase hex characters.
-/

namespace AIPlanet

/-- Python `s[:n]` — character-count slice of a string. -/
def strTake (s : String) (n : Nat) : String := ⟨s.data.take n⟩

/-- Python `sep.join(parts)`. -/
def joinSep (sep : String) : List String → String
  | [] => ""
  | [x] => x
  | x :: y :: xs => x ++ sep ++ joinSep sep (y :: xs)

namespace MD5

/-- Combine two machine words bit by bit; `fuel` is the number of binary
digits processed (32 for MD5 words). -/
def bitop (f : Bool → Bool → Bool) : Nat → Nat → Nat → Nat
  | 0, _, _ => 0
  | fuel + 1, a, b =>
      (if f (a % 2 == 1) (b % 2 == 1) then 1 else 0) + 2 * bitop f fuel (a / 2) (b / 2)

def and32 (a b : Nat) : Nat := bitop (fun x y => x && y) 32 a b

def or32 (a b : Nat) : Nat := bitop (fun x y => x || y) 32 a b

def xor32 (a b : Nat) : Nat := bitop (fun x y => x != y) 32 a b

def not32 (a : Nat) : Nat := 4294967295 - a % 4294967296

def add32 (a b : Nat) : Nat := (a + b) % 4294967296

/-- Rotate a 32-bit word left by `n` places (`n ≤ 32`). -/
def rotl32 (x n : Nat) : Nat :=
  x % 4294967296 * 2 ^ n % 4294967296 + x % 4294967296 / 2 ^ (32 - n)

/-- UTF-8 encoding of one character, as Python `str.encode()` produces. -/
def utf8EncodeChar (c : Char) : List Nat :=
  let n := c.toNat
  if n < 128 then [n]
  else if n < 2048 then [192 + n / 64, 128 + n % 64]
  else if n < 65536 then [224 + n / 4096, 128 + n / 64 % 64, 128 + n % 64]
  else [240 + n / 262144, 128 + n / 4096 % 64, 128 + n / 64 % 64, 128 + n % 64]

/-- Python `text.encode()` — UTF-8 bytes of a string. -/
def utf8Bytes (s : String) : List Nat := (s.data.map utf8EncodeChar).flatten

/-- `k` bytes of `v`, least significant first. -/
def leBytes (v : Nat) : Nat → List Nat
  | 0 => []
  | k + 1 => v % 256 :: leBytes (v / 256) k

/-- Read a little-endian byte list as one number. -/
def leNat (bs : List Nat) : Nat := bs.foldr (fun b acc => b + 256 * acc) 0

/-- RFC 1321 padding: append `0x80`, zero-fill to 56 mod 64 bytes, then
the original length in bits as 8 little-endian bytes. -/
def padMessage (msg : List Nat) : List Nat :=
  msg ++ [128] ++ List.replicate ((119 - msg.length % 64) % 64) 0
      ++ leBytes (8 * msg.length) 8

/-- Per-round left-rotation amounts. -/
def sTable : List Nat :=
  [7, 12, 17, 22, 7, 12, 17, 22, 7, 12, 17, 22, 7, 12, 17, 22,
   5, 9, 14, 20, 5, 9, 14, 20, 5, 9, 14, 20, 5, 9, 14, 20,
   4, 11, 16, 23, 4, 11, 16, 23, 4, 11, 16, 23, 4, 11, 16, 23,
   6, 10, 15, 21, 6, 10, 15, 21, 6, 10, 15, 21, 6, 10, 15, 21]

/-- The 64 sine-derived constants of RFC 1321. -/
def kTable : List Nat :=
  [0xd76aa478, 0xe8c7b756, 0x242070db, 0xc1bdceee,
   0xf57c0faf, 0x4787c62a, 0xa8304613, 0xfd469501,
   0x698098d8, 0x8b44f7af, 0xffff5bb1, 0x895cd7be,
   0x6b901122, 0xfd987193, 0xa679438e, 0x49b40821,
   0xf61e2562, 0xc040b340, 0x265e5a51, 0xe9b6c7aa,
   0xd62f105d, 0x02441453, 0xd8a1e681, 0xe7d3fbc8,
   0x21e1cde6, 0xc33707d6, 0xf4d50d87, 0x455a14ed,
   0xa9e3e905, 0xfcefa3f8, 0x676f02d9, 0x8d2a4c8a,
   0xfffa3942, 0x8771f681, 0x6d9d6122, 0xfde5380c,
   0xa4beea44, 0x4bdecfa9, 0xf6bb4b60, 0xbebfbc70,
   0x289b7ec6, 0xeaa127fa, 0xd4ef3085, 0x04881d05,
   0xd9d4d039, 0xe6db99e5, 0x1fa27cf8, 0xc4ac5665,
   0xf4292244, 0x432aff97, 0xab9423a7, 0xfc93a039,
   0x655b59c3, 0x8f0ccc92, 0xffeff47d, 0x85845dd1,
   0x6fa87e4f, 0xfe2ce6e0, 0xa3014314, 0x4e0811a1,
   0xf7537e82, 0xbd3af235, 0x2ad7d2bb, 0xeb86d391]

/-- One of the 64 MD5 rounds applied to the running `(A, B, C, D)`. -/
def md5Round (M : Nat → Nat) (st : Nat × Nat × Nat × Nat) (i : Nat) :
    Nat × Nat × Nat × Nat :=
  let A := st.1
  let B := st.2.1
  let C := st.2.2.1
  let D := st.2.2.2
  let F :=
    if i < 16 then or32 (and32 B C) (and32 (not32 B) D)
    else if i < 32 then or32 (and32 D B) (and32 (not32 D) C)
    else if i < 48 then xor32 B (xor32 C D)
    else xor32 C (or32 B (not32 D))
  let g :=
    if i < 16 then i
    else if i < 32 then (5 * i + 1) % 16
    else if i < 48 then (3 * i + 5) % 16
    else 7 * i % 16
  let tmp := add32 F (add32 A (add32 (kTable.getD i 0) (M g)))
  (D, add32 B (rotl32 tmp (sTable.getD i 0)), B, C)

/-- Process one 64-byte block, updating the four state words. -/
def md5Block (st : Nat × Nat × Nat × Nat) (bytes : List Nat) :
    Nat × Nat × Nat × Nat :=
  let M := fun g => leNat ((bytes.drop (4 * g)).take 4)
  let r := (List.range 64).foldl (md5Round M) st
  (add32 st.1 r.1, add32 st.2.1 r.2.1, add32 st.2.2.1 r.2.2.1,
   add32 st.2.2.2 r.2.2.2)

/-- Fold `md5Block` over consecutive 64-byte blocks; `fuel` bounds the
number of blocks and exceeds it whenever `fuel ≥ bytes.length`. -/
def processBlocksAux (st : Nat × Nat × Nat × Nat) :
    Nat → List Nat → Nat × Nat × Nat × Nat
  | _, [] => st
  | 0, _ :: _ => st
  | fuel + 1, b :: bs =>
      processBlocksAux (md5Block st ((b :: bs).take 64)) fuel (bs.drop 63)

/-- Fold `md5Block` over consecutive 64-byte blocks. -/
def processBlocks (st : Nat × Nat × Nat × Nat) (bytes : List Nat) :
    Nat × Nat × Nat × Nat :=
  processBlocksAux st bytes.length bytes

/-- Lowercase hex character for a value below 16. -/
def hexChar (n : Nat) : Char :=
  if n < 10 then Char.ofNat (48 + n) else Char.ofNat (87 + n)

/-- Two lowercase hex characters for one byte. -/
def byteHex (b : Nat) : List Char := [hexChar (b / 16 % 16), hexChar (b % 16)]

/-- Hex rendering of a state word, little-endian byte order. -/
def wordLEHex (w : Nat) : List Char := ((leBytes w 4).map byteHex).flatten

/-- `hashlib.md5(s.encode()).hexdigest()` — 32 lowercase hex characters. -/
def md5_hexdigest (s : String) : List Char :=
  let st := processBlocks (0x67452301, 0xefcdab89, 0x98badcfe, 0x10325476)
      (padMessage (utf8Bytes s))
  wordLEHex st.1 ++ wordLEHex st.2.1 ++ wordLEHex st.2.2.1 ++ wordLEHex st.2.2.2

end MD5

set_option maxRecDepth 100000

/-- Sanity check of the MD5 model against the RFC 1321 test vector for
the empty message. -/
theorem md5_empty_vector :
    MD5.md5_hexdigest "" = "d41d8cd98f00b204e9800998ecf8427e".data := by
  decide

/-- Sanity check of the MD5 model against the RFC 1321 test vector for
`"abc"`. -/
theorem md5_abc_vector :
    MD5.md5_hexdigest "abc" = "900150983cd24fb0d6963f7d28e17f72".data := by
  decide

/-! ## `embeddings_service.py` -/

/-- Value of one hexadecimal digit, as `int(·, 16)` reads it.  Python
raises on a non-hex character; the digests fed to this function contain
only `0-9a-f`, so the `0` default is never exercised there. -/
def hexDigitVal (c : Char) : Nat :=
  let n := c.toNat
  if 48 ≤ n ∧ n ≤ 57 then n - 48
  else if 97 ≤ n ∧ n ≤ 102 then n - 87
  else if 65 ≤ n ∧ n ≤ 70 then n - 55
  else 0

/-- Python `int(s, 16)` on a string of hex digits. -/
def hexToNat (s : List Char) : Nat :=
  s.foldl (fun acc c => 16 * acc + hexDigitVal c) 0

/-- The loop body of `create_dummy_embedding` at index `i`: slice eight
hex characters of the digest starting at `i % len(text_hash)`,
left-justify with `'0'` (`chunk.ljust(8, '0')`), read the slice as hex
(`val = int(chunk, 16) / (16**8)`) and map it to `(val - 0.5) * 2`. -/
def dummy_component (text_hash : List Char) (i : Nat) : ℚ :=
  let chunk := (text_hash.drop (i % text_hash.length)).take 8
  let chunk := chunk ++ List.replicate (8 - chunk.length) '0'
  let val : ℚ := (hexToNat chunk : ℚ) / 16 ^ 8
  (val - 1 / 2) * 2

/-- `create_dummy_embedding(text, dimension)` — the deterministic
hash-based fallback.  The source iterates `for i in range(0, dimension, 8)`
(`(dimension + 7) / 8` iterations, `i = 8 * j`), appends one component
per iteration, then returns `embedding[:dimension]`.  The source's
default argument is `dimension = 1536`. -/
def create_dummy_embedding (text : String) (dimension : Nat) : List ℚ :=
  let text_hash := MD5.md5_hexdigest text
  (((List.range ((dimension + 7) / 8)).map fun j =>
      dummy_component text_hash (8 * j))).take dimension

/-- The module-level provider globals of `embeddings_service.py` and
`workflow_engine.py` (`settings.EMBEDDING_PROVIDER`, `has_gemini_key`,
`has_openai_key`, `openai_client`) together with the external network
calls, made explicit as one record.  `gemini_embed` models
`genai.embed_content` (`Except.error` is a raised exception, carrying
`str(e)`); `openai_embed` models `create_openai_embedding`, whose body is
not in the sources; `openai_chat` models
`openai_client.chat.completions.create` (`none` is a raised exception). -/
structure ProviderConfig where
  embedding_provider : String
  has_gemini_key : Bool
  has_openai_key : Bool
  openai_client : Bool
  gemini_embed : String → Except String (List ℚ)
  openai_embed : String → List ℚ
  openai_chat : Option String → String → Option String

/-- Python `"429" in str(e)` — substring containment. -/
def strContains (s sub : String) : Bool :=
  (List.range (s.data.length + 1)).any fun i => sub.data.isPrefixOf (s.data.drop i)

/-- `create_gemini_embedding(text)`: call Gemini, pad a 768-vector to
1536; on an exception whose text mentions `429` fall back to OpenAI when
a key is present, otherwise to the dummy embedding. -/
def create_gemini_embedding (cfg : ProviderConfig) (text : String) : List ℚ :=
  match cfg.gemini_embed text with
  | Except.ok embedding =>
      if embedding.length = 768 then
        embedding ++ List.replicate (1536 - 768) 0
      else embedding
  | Except.error e =>
      if strContains e "429" && cfg.has_openai_key then cfg.openai_embed text
      else create_dummy_embedding text 1536

/-- `create_embedding(text)` — multi-provider dispatch: Gemini when it
is the configured provider and a key is present, else OpenAI when a key
is present, else the deterministic dummy embedding (with the source's
default `dimension = 1536`). -/
def create_embedding (cfg : ProviderConfig) (text : String) : List ℚ :=
  if cfg.embedding_provider = "gemini" && cfg.has_gemini_key then
    create_gemini_embedding cfg text
  else if cfg.has_openai_key then cfg.openai_embed text
  else create_dummy_embedding text 1536

/-- The configuration in force when no network provider is configured:
no Gemini key, no OpenAI key, no client object.  The network fields are
then dead code; they are given vacuous values. -/
def noProviders : ProviderConfig where
  embedding_provider := "gemini"
  has_gemini_key := false
  has_openai_key := false
  openai_client := false
  gemini_embed := fun _ => Except.error "no key"
  openai_embed := fun _ => []
  openai_chat := fun _ _ => none

/-! ## `doc_ingest.py` -/

/-- The chunking comprehension of `ingest_pdf_bytes`:
`[text[i:i+size] for i in range(0, len(text), size)]`.  The source only
ever calls it with `size = CHUNK_SIZE = 1000`; Python `range` rejects a
zero step, and for positive `size` the definition below steps through
the text exactly as the comprehension does. -/
def chunk (size : Nat) (text : List Char) : List (List Char) :=
  match text with
  | [] => []
  | c :: cs => (c :: cs).take size :: chunk size (cs.drop (size - 1))
termination_by text.length
decreasing_by simp only [List.length_drop, List.length_cons]; omega

/-- What `ingest_pdf_bytes` passes to `col.add`, together with its
return value `{"status": "ok", "chunks_indexed": len(chunks)}`. -/
structure IngestResult where
  ids : List String
  documents : List String
  metadatas : List (String × Nat)
  embeddings : List (List ℚ)
  chunks_indexed : Nat
deriving DecidableEq

/-- `ingest_pdf_bytes(filename, file_bytes)`.  Text extraction
(`extract_text_from_pdf_bytes`, PyMuPDF) is an external collaborator;
its output is taken as the `text` argument.  The chunk ids are
`f"{filename}::{i}"`, the metadatas `{"source": filename, "chunk": i}`
(modelled as the pair), and each chunk is embedded with
`create_embedding`. -/
def ingest_pdf_bytes (cfg : ProviderConfig) (filename : String)
    (text : String) : IngestResult :=
  let chunks := (chunk 1000 text.data).map fun l => (⟨l⟩ : String)
  { ids := (List.range chunks.length).map fun i => filename ++ "::" ++ toString i
    documents := chunks
    metadatas := (List.range chunks.length).map fun i => (filename, i)
    embeddings := chunks.map (create_embedding cfg)
    chunks_indexed := chunks.length }

/-! ## `chroma_client.py` and the ChromaDB collection -/

/-- One `(id, embedding, document, metadata)` tuple stored in the
`documents` collection. -/
structure ChromaEntry where
  id : String
  embedding : List ℚ
  document : String
  metadata : String × Nat
deriving DecidableEq

/-- Insert into a list sorted by `le`. -/
def insertSorted {α : Type} (le : α → α → Bool) (x : α) : List α → List α
  | [] => [x]
  | y :: ys => if le x y then x :: y :: ys else y :: insertSorted le x ys

/-- Insertion sort by `le`. -/
def sortByLe {α : Type} (le : α → α → Bool) : List α → List α
  | [] => []
  | x :: xs => insertSorted le x (sortByLe le xs)

/-- Modelled from the spec: the Vector Index (`col.query` of the external
ChromaDB collection, configured with cosine space) answers a query with
the stored entries in ascending distance order, clamped to `n_results`;
`dist` is the collection's distance function, kept abstract because its
cosine arithmetic lives outside the repository. -/
def collection_query (dist : List ℚ → List ℚ → ℚ) (col : List ChromaEntry)
    (q_emb : List ℚ) (k : Nat) : List ChromaEntry :=
  (sortByLe (fun a b => decide (dist q_emb a.embedding ≤ dist q_emb b.embedding))
    col).take k

/-! ## `workflow_engine.py` -/

/-- `retrieve_context_from_kb(query, k=4)`: embed the query with
`create_openai_embedding` (per the import block; under `noProviders`
this is the same dispatch as `create_embedding`, modelled here through
`create_embedding` so the no-provider dummy path is reachable exactly as
in `embeddings_service.py`), query the collection for `k` results, and
return the flattened document texts together with the metadatas.  The
source's default is `k = 4`. -/
def retrieve_context_from_kb (cfg : ProviderConfig)
    (dist : List ℚ → List ℚ → ℚ) (col : List ChromaEntry) (query : String)
    (k : Nat) : List String × List (List (String × Nat)) :=
  let q_emb := create_embedding cfg query
  let results := collection_query dist col q_emb k
  (results.map ChromaEntry.document, [results.map ChromaEntry.metadata])

/-- `call_llm_system(prompt, system_message=None)`: when an OpenAI key
and client are present, a chat completion is attempted — a raised
exception yields `f"AI service error: {prompt[:100]}..."` — otherwise
the deterministic stub `f"Test response: '{prompt[:100]}...'"` is
returned. -/
def call_llm_system (cfg : ProviderConfig) (prompt : String)
    (system_message : Option String) : String :=
  if cfg.has_openai_key && cfg.openai_client then
    match cfg.openai_chat system_message prompt with
    | some content => content
    | none => "AI service error: " ++ strTake prompt 100 ++ "..."
  else
    "Test response: '" ++ strTake prompt 100 ++ "...'"

/-- A workflow node as the engine reads it: only `id` and `type` are
ever accessed; `config` carries the UI's per-node options
(`data.config`), which the backend never reads. -/
structure WFNode where
  id : String
  type : String
  config : List (String × String)
deriving DecidableEq

/-- A workflow edge `{id, source, target}`. -/
structure WFEdge where
  id : String
  source : String
  target : String
deriving DecidableEq

/-- The graph definition `{nodes: [...], edges: [...]}`. -/
structure WorkflowDef where
  nodes : List WFNode
  edges : List WFEdge
deriving DecidableEq

/-- The `context` local of `run_workflow`: empty unless some node has
type `KnowledgeBase`, in which case the retrieved documents are joined
with blank lines. -/
def workflow_context (cfg : ProviderConfig) (dist : List ℚ → List ℚ → ℚ)
    (col : List ChromaEntry) (wd : WorkflowDef) (user_query : String) : String :=
  if wd.nodes.any fun n => n.type == "KnowledgeBase" then
    joinSep "\n\n" (retrieve_context_from_kb cfg dist col user_query 4).1
  else ""

/-- The `final_prompt` local of `run_workflow`: the context paragraph
(when the context string is non-empty), the query paragraph, and the
instructions paragraph (when `custom_prompt` is present and non-empty —
Python truthiness), joined with blank lines. -/
def final_prompt (cfg : ProviderConfig) (dist : List ℚ → List ℚ → ℚ)
    (col : List ChromaEntry) (wd : WorkflowDef) (user_query : String)
    (custom_prompt : Option String) : String :=
  let context := workflow_context cfg dist col wd user_query
  joinSep "\n\n"
    ((if context ≠ "" then ["Context:\n" ++ context] else [])
      ++ ["Query:\n" ++ user_query]
      ++ (match custom_prompt with
          | some s => if s ≠ "" then ["Instructions:\n" ++ s] else []
          | none => []))

/-- `run_workflow(workflow_definition, user_query, custom_prompt=None)`. -/
def run_workflow (cfg : ProviderConfig) (dist : List ℚ → List ℚ → ℚ)
    (col : List ChromaEntry) (wd : WorkflowDef) (user_query : String)
    (custom_prompt : Option String) : String :=
  call_llm_system cfg (final_prompt cfg dist col wd user_query custom_prompt) none

/-! ## `api/V1/workflows.py` -/

/-- `run_workflow_endpoint`: collect the node types, reject the request
with `{"error": ...}` when no node has type `UserQuery`, otherwise
answer with `{"answer": run_workflow(...)}`. -/
def run_workflow_endpoint (cfg : ProviderConfig)
    (dist : List ℚ → List ℚ → ℚ) (col : List ChromaEntry)
    (definition : WorkflowDef) (query : String)
    (custom_prompt : Option String) : Except String String :=
  let types := definition.nodes.map WFNode.type
  if "UserQuery" ∈ types then
    Except.ok (run_workflow cfg dist col definition query custom_prompt)
  else Except.error "Workflow must include a UserQuery node"

/-- `validate_workflow(definition)` from the documentation's component
validation section (not invoked by `run_workflow_endpoint`): `False`
when no node has type `UserQuery` or some edge endpoint is not a node
id, `True` otherwise. -/
def validate_workflow (definition : WorkflowDef) : Bool :=
  let node_types := definition.nodes.map WFNode.type
  if "UserQuery" ∉ node_types then false
  else
    let node_ids := definition.nodes.map WFNode.id
    definition.edges.all fun e =>
      decide (e.source ∈ node_ids) && decide (e.target ∈ node_ids)

/-! ## Helper lemmas -/

theorem strAppend_assoc (a b c : String) : a ++ b ++ c = a ++ (b ++ c) := by
  apply String.ext
  simp [String.data_append]

theorem hexDigitVal_lt (c : Char) : hexDigitVal c < 16 := by
  show (if 48 ≤ c.toNat ∧ c.toNat ≤ 57 then c.toNat - 48
    else if 97 ≤ c.toNat ∧ c.toNat ≤ 102 then c.toNat - 87
    else if 65 ≤ c.toNat ∧ c.toNat ≤ 70 then c.toNat - 55 else 0) < 16
  repeat' split
  all_goals omega

theorem hexToNat_foldl_lt (l : List Char) :
    ∀ acc, l.foldl (fun acc c => 16 * acc + hexDigitVal c) acc
      < (acc + 1) * 16 ^ l.length := by
  induction l with
  | nil => intro acc; simp only [List.foldl_nil, List.length_nil, pow_zero, Nat.mul_one]; omega
  | cons c cs ih =>
    intro acc
    have h1 := ih (16 * acc + hexDigitVal c)
    have h2 := hexDigitVal_lt c
    have hstep : 16 * acc + hexDigitVal c + 1 ≤ 16 * (acc + 1) := by omega
    have h3 : (16 * acc + hexDigitVal c + 1) * 16 ^ cs.length
        ≤ (acc + 1) * 16 ^ (cs.length + 1) := by
      calc (16 * acc + hexDigitVal c + 1) * 16 ^ cs.length
          ≤ 16 * (acc + 1) * 16 ^ cs.length := Nat.mul_le_mul_right _ hstep
        _ = (acc + 1) * 16 ^ (cs.length + 1) := by ring
    simpa [List.foldl_cons, List.length_cons] using lt_of_lt_of_le h1 h3

theorem hexToNat_lt (l : List Char) : hexToNat l < 16 ^ l.length := by
  simpa [hexToNat] using hexToNat_foldl_lt l 0

theorem dummy_component_bound (h : List Char) (i : Nat) :
    -1 ≤ dummy_component h i ∧ dummy_component h i ≤ 1 := by
  unfold dummy_component
  set c := ((h.drop (i % h.length)).take 8) with hc
  have hlen : (c ++ List.replicate (8 - c.length) '0').length = 8 := by
    have : c.length ≤ 8 := by
      rw [hc]; simp only [List.length_take]; exact Nat.min_le_left 8 _
    simp only [List.length_append, List.length_replicate]
    omega
  have hval : hexToNat (c ++ List.replicate (8 - c.length) '0') < 4294967296 := by
    have := hexToNat_lt (c ++ List.replicate (8 - c.length) '0')
    rw [hlen] at this
    simpa using this
  have hval' : ((hexToNat (c ++ List.replicate (8 - c.length) '0') : ℚ)) ≤ 16 ^ 8 := by
    have : ((hexToNat (c ++ List.replicate (8 - c.length) '0') : ℚ)) ≤ 4294967296 := by
      exact_mod_cast Nat.le_of_lt hval
    calc ((hexToNat (c ++ List.replicate (8 - c.length) '0') : ℚ))
        ≤ 4294967296 := this
      _ ≤ 16 ^ 8 := by norm_num
  have h0 : (0 : ℚ) ≤ (hexToNat (c ++ List.replicate (8 - c.length) '0') : ℚ) / 16 ^ 8 :=
    div_nonneg (by positivity) (by norm_num)
  have h1 : ((hexToNat (c ++ List.replicate (8 - c.length) '0') : ℚ)) / 16 ^ 8 ≤ 1 := by
    rw [div_le_one (by norm_num)]
    exact hval'
  constructor <;> simp only [] <;> linarith

theorem create_dummy_embedding_len (t : String) :
    (create_dummy_embedding t 1536).length = 192 := by
  simp [create_dummy_embedding]

theorem chunk_flatten (size : Nat) (h : 0 < size) (text : List Char) :
    (chunk size text).flatten = text := by
  match text with
  | [] => simp [chunk]
  | c :: cs =>
    obtain ⟨k, rfl⟩ : ∃ k, size = k + 1 := ⟨size - 1, by omega⟩
    have ih := chunk_flatten (k + 1) h (cs.drop k)
    rw [chunk]
    simp only [Nat.add_sub_cancel] at ih ⊢
    simp only [List.flatten_cons, ih, List.take_succ_cons, List.cons_append]
    rw [List.take_append_drop]
termination_by text.length
decreasing_by simp only [List.length_drop, List.length_cons]; omega

theorem chunk_eq_nil_iff (size : Nat) (text : List Char) :
    chunk size text = [] ↔ text = [] := by
  match text with
  | [] => simp [chunk]
  | c :: cs => rw [chunk]; simp

theorem chunk_length_1000 (text : List Char) :
    (chunk 1000 text).length = (text.length + 999) / 1000 := by
  match text with
  | [] => simp [chunk]
  | c :: cs =>
    have ih := chunk_length_1000 (cs.drop 999)
    rw [chunk]
    simp only [List.length_cons, ih, List.length_drop]
    omega
termination_by text.length
decreasing_by simp only [List.length_drop, List.length_cons]; omega

theorem chunk_getD_length (size : Nat) (h : 0 < size) (text : List Char) :
    ∀ i, i + 1 < (chunk size text).length →
      ((chunk size text).getD i []).length = size := by
  match text with
  | [] => intro i hi; rw [chunk] at hi; simp at hi
  | c :: cs =>
    intro i hi
    rw [chunk] at hi ⊢
    match i with
    | 0 =>
      simp only [List.length_cons] at hi
      have hne : cs.drop (size - 1) ≠ [] := by
        intro hd
        rw [(chunk_eq_nil_iff size _).2 hd] at hi
        simp at hi
      have hlen : size ≤ cs.length := by
        have := List.length_drop (size - 1) cs ▸ List.length_pos.2 hne
        omega
      simp only [List.getD_cons_zero, List.length_take, List.length_cons]
      omega
    | j + 1 =>
      have ih := chunk_getD_length size h (cs.drop (size - 1)) j
        (by simpa using hi)
      simpa using ih
termination_by text.length
decreasing_by simp only [List.length_drop, List.length_cons]; omega

/-! ## Claim theorems: embeddings and ingestion -/

/-- C1: the claim states that `create_embedding` always returns a vector
of the process-wide dimension 1536, in particular on the no-provider
dummy path.  The code contradicts this and its own
`dimension: int = 1536` parameter: the loop `for i in range(0, 1536, 8)`
performs only 192 iterations and appends a single component per
iteration, so the fallback vector has 192 components, never 1536 — with
no providers configured, `create_embedding` returns
`create_dummy_embedding(text)` of length 192 for every text. -/
theorem create_embedding_fallback_dimension_bug (t : String) :
    create_embedding noProviders t = create_dummy_embedding t 1536 ∧
    (create_embedding noProviders t).length = 192 ∧
    (create_embedding noProviders t).length ≠ 1536 := by
  have hd : create_embedding noProviders t = create_dummy_embedding t 1536 := rfl
  refine ⟨hd, ?_, ?_⟩
  · rw [hd, create_dummy_embedding_len]
  · rw [hd, create_dummy_embedding_len]; omega

/-- C7: chunking reconstructs its input — for every text and positive
size, concatenating the chunks of
`[text[i:i+size] for i in range(0, len(text), size)]` in order yields
the text back (hence the segments are non-overlapping), and every
segment except possibly the last has exactly the given size.
Determinism is inherent: `chunk` is a pure function of its two
arguments. -/
theorem chunk_round_trip (size : Nat) (text : List Char) (h : 0 < size) :
    (chunk size text).flatten = text ∧
    ∀ i, i + 1 < (chunk size text).length →
      ((chunk size text).getD i []).length = size :=
  ⟨chunk_flatten size h text, chunk_getD_length size h text⟩

/-- Witness for C7 at `size = 3`, `text = "hello world"`. -/
theorem chunk_round_trip_witness :
    (chunk 3 "hello world".data).flatten = "hello world".data ∧
    ∀ i, i + 1 < (chunk 3 "hello world".data).length →
      ((chunk 3 "hello world".data).getD i []).length = 3 :=
  chunk_round_trip 3 "hello world".data (by omega)

/-- C8: ingestion chunk accounting — `ingest_pdf_bytes` reports
`chunks_indexed = ⌈len(text) / 1000⌉` in general; on a 2500-character
extracted text it indexes exactly 3 chunks whose ids are
`filename::0`, `filename::1`, `filename::2` in ascending ordinal
order. -/
theorem ingest_chunk_count (cfg : ProviderConfig) (filename text : String) :
    (ingest_pdf_bytes cfg filename text).chunks_indexed
      = (text.data.length + 999) / 1000 ∧
    (text.data.length = 2500 →
      (ingest_pdf_bytes cfg filename text).chunks_indexed = 3 ∧
      (ingest_pdf_bytes cfg filename text).ids
        = [filename ++ "::0", filename ++ "::1", filename ++ "::2"]) := by
  have hlen : (ingest_pdf_bytes cfg filename text).chunks_indexed
      = (text.data.length + 999) / 1000 := by
    simp [ingest_pdf_bytes, chunk_length_1000]
  refine ⟨hlen, fun h2500 => ⟨by rw [hlen, h2500], ?_⟩⟩
  have hc : (chunk 1000 text.data).length = 3 := by
    rw [chunk_length_1000, h2500]
  simp only [ingest_pdf_bytes, List.length_map, hc]
  have hr : List.range 3 = [0, 1, 2] := by decide
  rw [hr]
  simp only [List.map_cons, List.map_nil]
  have e0 : filename ++ "::" ++ toString (0 : Nat) = filename ++ "::0" := by
    rw [strAppend_assoc]; exact congrArg (fun s => filename ++ s) (by decide)
  have e1 : filename ++ "::" ++ toString (1 : Nat) = filename ++ "::1" := by
    rw [strAppend_assoc]; exact congrArg (fun s => filename ++ s) (by decide)
  have e2 : filename ++ "::" ++ toString (2 : Nat) = filename ++ "::2" := by
    rw [strAppend_assoc]; exact congrArg (fun s => filename ++ s) (by decide)
  rw [e0, e1, e2]

/-- Witness for C8 on a concrete 2500-character text. -/
theorem ingest_chunk_count_witness :
    (ingest_pdf_bytes noProviders "report.pdf"
        ⟨List.replicate 2500 'a'⟩).chunks_indexed = 3 ∧
    (ingest_pdf_bytes noProviders "report.pdf" ⟨List.replicate 2500 'a'⟩).ids
      = ["report.pdf::0", "report.pdf::1", "report.pdf::2"] :=
  (ingest_chunk_count noProviders "report.pdf" ⟨List.replicate 2500 'a'⟩).2
    (by simp)

/-- C9: with no network provider configured, `embed` is a pure function
of its input that factors through the MD5 digest — texts with equal
digests get equal fallback vectors (so repeated evaluation on the same
text is idempotent), the dispatch indeed lands on
`create_dummy_embedding`, and every component lies in `[-1, 1]`. -/
theorem dummy_embedding_pure_and_bounded (t₁ t₂ : String)
    (h : MD5.md5_hexdigest t₁ = MD5.md5_hexdigest t₂) :
    create_dummy_embedding t₁ 1536 = create_dummy_embedding t₂ 1536 ∧
    create_embedding noProviders t₁ = create_dummy_embedding t₁ 1536 ∧
    (create_dummy_embedding t₁ 1536).all
      (fun x => decide (-1 ≤ x ∧ x ≤ 1)) = true := by
  refine ⟨?_, rfl, ?_⟩
  · unfold create_dummy_embedding
    rw [h]
  · rw [List.all_eq_true]
    intro x hx
    have hx' := List.mem_of_mem_take hx
    rw [List.mem_map] at hx'
    obtain ⟨j, _, rfl⟩ := hx'
    exact decide_eq_true_iff.2 (dummy_component_bound _ _)

/-- Witness for C9 at `t₁ = t₂ = "a"`. -/
theorem dummy_embedding_pure_and_bounded_witness :
    create_dummy_embedding "a" 1536 = create_dummy_embedding "a" 1536 ∧
    create_embedding noProviders "a" = create_dummy_embedding "a" 1536 ∧
    (create_dummy_embedding "a" 1536).all
      (fun x => decide (-1 ≤ x ∧ x ≤ 1)) = true :=
  dummy_embedding_pure_and_bounded "a" "a" rfl

/-! ## Helper lemmas and concrete scenarios for the engine claims -/

theorem insertSorted_length {α : Type} (le : α → α → Bool) (x : α)
    (l : List α) : (insertSorted le x l).length = l.length + 1 := by
  induction l with
  | nil => rfl
  | cons y ys ih =>
    rw [insertSorted]
    split <;> simp [List.length_cons, ih]

theorem sortByLe_length {α : Type} (le : α → α → Bool) (l : List α) :
    (sortByLe le l).length = l.length := by
  induction l with
  | nil => rfl
  | cons x xs ih =>
    rw [sortByLe, insertSorted_length, ih]
    rfl

theorem retrieve_length (cfg : ProviderConfig) (dist : List ℚ → List ℚ → ℚ)
    (col : List ChromaEntry) (q : String) :
    (retrieve_context_from_kb cfg dist col q 4).1.length = min 4 col.length := by
  simp [retrieve_context_from_kb, collection_query, List.length_take,
    sortByLe_length]

theorem any_map_comp {α β : Type} (f : α → β) (p : β → Bool) (l : List α) :
    (l.map f).any p = l.any fun x => p (f x) := by
  induction l with
  | nil => rfl
  | cons x xs ih => simp [List.any_cons, ih]

theorem perm_any {α : Type} (p : α → Bool) {l₁ l₂ : List α}
    (h : List.Perm l₁ l₂) : l₁.any p = l₂.any p := by
  induction h with
  | nil => rfl
  | cons x _ ih => simp [List.any_cons, ih]
  | swap x y l => simp [List.any_cons, Bool.or_left_comm]
  | trans _ _ ih₁ ih₂ => exact ih₁.trans ih₂

/-- A distance function placing every stored chunk at cosine distance 1
(similarity 0) from every query: an index populated only with
loosely-related material. -/
def distConst : List ℚ → List ℚ → ℚ := fun _ _ => 1

/-- A single stored chunk unrelated to the queries used below. -/
def looseChunk : ChromaEntry :=
  ⟨"notes.pdf::0", [1, 0], "The weather in quantum computing.", ("notes.pdf", 0)⟩

/-- A populated collection holding only the loosely-related chunk. -/
def looseCol : List ChromaEntry := [looseChunk]

/-- The C2 scenario graph: a KnowledgeBase node configured with
`maxResults = 3` and `similarityThreshold = 0.9`. -/
def strictKbGraph : WorkflowDef :=
  ⟨[⟨"1", "UserQuery", []⟩,
    ⟨"2", "KnowledgeBase", [("maxResults", "3"), ("similarityThreshold", "0.9")]⟩,
    ⟨"3", "LLMEngine", []⟩,
    ⟨"4", "Output", []⟩],
   [⟨"e1", "1", "2"⟩, ⟨"e2", "2", "3"⟩, ⟨"e3", "3", "4"⟩]⟩

/-- The linear graph `UserQuery -> LLMEngine -> Output` of C6. -/
def c6Graph : WorkflowDef :=
  ⟨[⟨"1", "UserQuery", []⟩, ⟨"2", "LLMEngine", []⟩, ⟨"3", "Output", []⟩],
   [⟨"e1", "1", "2"⟩, ⟨"e2", "2", "3"⟩]⟩

/-- A graph whose only node is a UserQuery but whose edge targets a
node id that does not exist. -/
def danglingEdgeGraph : WorkflowDef :=
  ⟨[⟨"1", "UserQuery", []⟩], [⟨"e1", "1", "ghost"⟩]⟩

/-- The zero-node graph. -/
def emptyGraph : WorkflowDef := ⟨[], []⟩

/-- A graph containing a node of unrecognized type `Banana` next to a
UserQuery node. -/
def unknownTypeGraph : WorkflowDef :=
  ⟨[⟨"1", "UserQuery", []⟩, ⟨"2", "Banana", []⟩], []⟩

/-- The C5 scenario graph with an Output node configured for JSON. -/
def outJsonGraph : WorkflowDef :=
  ⟨[⟨"1", "UserQuery", []⟩, ⟨"2", "LLMEngine", []⟩,
    ⟨"3", "Output", [("format", "json"), ("includeSources", "true")]⟩],
   [⟨"e1", "1", "2"⟩, ⟨"e2", "2", "3"⟩]⟩

/-- The C5 scenario graph with an Output node configured for text. -/
def outTextGraph : WorkflowDef :=
  ⟨[⟨"1", "UserQuery", []⟩, ⟨"2", "LLMEngine", []⟩,
    ⟨"3", "Output", [("format", "text"), ("includeSources", "true")]⟩],
   [⟨"e1", "1", "2"⟩, ⟨"e2", "2", "3"⟩]⟩

/-! ## Claim theorems: workflow engine and endpoint -/

/-- C2 (counterexample): against a populated index holding only a
loosely-related chunk (cosine distance 1, similarity 0 — far below the
configured threshold 0.9), the retrieval step of the C2 scenario graph
returns that chunk rather than an empty result set, and the composed
prompt does contain a retrieved-context section. -/
theorem kb_threshold_counterexample :
    (retrieve_context_from_kb noProviders distConst looseCol
        "capital of France" 4).1 = ["The weather in quantum computing."] ∧
    (retrieve_context_from_kb noProviders distConst looseCol
        "capital of France" 4).1 ≠ [] ∧
    final_prompt noProviders distConst looseCol strictKbGraph
        "capital of France" none
      = "Context:\nThe weather in quantum computing.\n\nQuery:\ncapital of France" := by
  refine ⟨rfl, by decide, rfl⟩

/-- C2 (amended): `retrieve_context_from_kb` takes no similarity
threshold and no max-results count from the KnowledgeBase node — it
always returns the `min 4 |collection|` nearest chunks with no
similarity filtering, and the node's configuration has no effect
whatsoever on the answer `run_workflow` produces. -/
theorem kb_retrieval_ignores_node_config
    (cfg : ProviderConfig) (dist : List ℚ → List ℚ → ℚ)
    (col : List ChromaEntry) (q : String) :
    (retrieve_context_from_kb cfg dist col q 4).1.length = min 4 col.length ∧
    ∀ (c₁ c₂ : List (String × String)) (i : String) (nodes : List WFNode)
      (edges₁ edges₂ : List WFEdge) (uq : String) (cp : Option String),
      run_workflow cfg dist col ⟨nodes ++ [⟨i, "KnowledgeBase", c₁⟩], edges₁⟩ uq cp
        = run_workflow cfg dist col ⟨nodes ++ [⟨i, "KnowledgeBase", c₂⟩], edges₂⟩ uq cp := by
  refine ⟨retrieve_length cfg dist col q, ?_⟩
  intro c₁ c₂ i nodes edges₁ edges₂ uq cp
  have hb : (("KnowledgeBase" : String) == "KnowledgeBase") = true := by decide
  unfold run_workflow final_prompt workflow_context
  simp [List.any_append, List.any_cons, hb]

/-- C3 (counterexample): a graph whose single edge references the
unknown node id `ghost` is not rejected — the endpoint runs it and
answers — and the zero-node graph fails with the generic
missing-UserQuery error rather than a specific "no nodes" error. -/
theorem validation_counterexample :
    run_workflow_endpoint noProviders distConst [] danglingEdgeGraph "q" none
      = Except.ok "Test response: 'Query:\nq...'" ∧
    run_workflow_endpoint noProviders distConst [] emptyGraph "q" none
      = Except.error "Workflow must include a UserQuery node" := by
  exact ⟨rfl, rfl⟩

/-- C3 (amended): the only pre-execution validation is the presence of
a node of type UserQuery, failing with exactly the error
`Workflow must include a UserQuery node` — a zero-node graph gets this
same missing-entry error, not a distinct "no nodes" error — and edge
endpoints are not checked on the execution path; only the standalone
`validate_workflow` (which the endpoint never calls) checks edge
endpoints, returning a bare boolean with no specific error. -/
theorem endpoint_validation_characterization
    (cfg : ProviderConfig) (dist : List ℚ → List ℚ → ℚ)
    (col : List ChromaEntry) (wd : WorkflowDef) (q : String)
    (cp : Option String) :
    (run_workflow_endpoint cfg dist col wd q cp
        = Except.error "Workflow must include a UserQuery node"
      ↔ "UserQuery" ∉ wd.nodes.map WFNode.type) ∧
    ("UserQuery" ∈ wd.nodes.map WFNode.type →
      run_workflow_endpoint cfg dist col wd q cp
        = Except.ok (run_workflow cfg dist col wd q cp)) ∧
    (validate_workflow wd = true ↔
      ("UserQuery" ∈ wd.nodes.map WFNode.type ∧
        ∀ e ∈ wd.edges, e.source ∈ wd.nodes.map WFNode.id
          ∧ e.target ∈ wd.nodes.map WFNode.id)) := by
  refine ⟨?_, ?_, ?_⟩
  · by_cases hm : "UserQuery" ∈ wd.nodes.map WFNode.type <;>
      simp [run_workflow_endpoint, hm]
  · intro hm
    simp [run_workflow_endpoint, hm]
  · by_cases hm : "UserQuery" ∈ wd.nodes.map WFNode.type <;>
      simp [validate_workflow, hm, List.all_eq_true, Bool.and_eq_true,
        decide_eq_true_eq]

/-- Witness for C3's amended theorem: on the dangling-edge graph the
endpoint proceeds to execution. -/
theorem endpoint_validation_characterization_witness :
    run_workflow_endpoint noProviders distConst [] danglingEdgeGraph "q" none
      = Except.ok (run_workflow noProviders distConst [] danglingEdgeGraph "q" none) :=
  (endpoint_validation_characterization noProviders distConst []
    danglingEdgeGraph "q" none).2.1 (by decide)

/-- C4 (counterexample): the graph containing a node of unrecognized
type `Banana` passes the endpoint's only check and executes, returning
an answer — it is not rejected as a validation error — and its answer
is identical to that of the same graph without the `Banana` node: the
unrecognized node is silently skipped. -/
theorem unknown_node_type_counterexample :
    run_workflow_endpoint noProviders distConst [] unknownTypeGraph "hi" none
      = Except.ok "Test response: 'Query:\nhi...'" ∧
    run_workflow noProviders distConst [] unknownTypeGraph "hi" none
      = run_workflow noProviders distConst []
          ⟨[⟨"1", "UserQuery", []⟩], []⟩ "hi" none := by
  exact ⟨rfl, rfl⟩

/-- C4 (amended): no check rejects unrecognized node types — execution
treats any node whose type is not `KnowledgeBase` exactly like an
absent node, and the endpoint accepts the graph whenever some node has
type UserQuery, so an unrecognized node type is silently skipped, never
a validation error. -/
theorem unknown_node_type_silently_skipped
    (cfg : ProviderConfig) (dist : List ℚ → List ℚ → ℚ)
    (col : List ChromaEntry) (n : WFNode) (nodes : List WFNode)
    (edges : List WFEdge) (q : String) (cp : Option String)
    (h : n.type ≠ "KnowledgeBase") :
    run_workflow cfg dist col ⟨n :: nodes, edges⟩ q cp
      = run_workflow cfg dist col ⟨nodes, edges⟩ q cp ∧
    ("UserQuery" ∈ (n :: nodes).map WFNode.type →
      run_workflow_endpoint cfg dist col ⟨n :: nodes, edges⟩ q cp
        = Except.ok (run_workflow cfg dist col ⟨nodes, edges⟩ q cp)) := by
  have hrun : run_workflow cfg dist col ⟨n :: nodes, edges⟩ q cp
      = run_workflow cfg dist col ⟨nodes, edges⟩ q cp := by
    unfold run_workflow final_prompt workflow_context
    simp [List.any_cons, beq_iff_eq, h]
  refine ⟨hrun, fun hm => ?_⟩
  show (if "UserQuery" ∈ (n :: nodes).map WFNode.type
      then Except.ok (run_workflow cfg dist col ⟨n :: nodes, edges⟩ q cp)
      else Except.error "Workflow must include a UserQuery node")
    = Except.ok (run_workflow cfg dist col ⟨nodes, edges⟩ q cp)
  rw [if_pos hm, hrun]

/-- Witness for C4's amended theorem on the `Banana` node. -/
theorem unknown_node_type_silently_skipped_witness :
    run_workflow noProviders distConst []
        ⟨[⟨"2", "Banana", []⟩, ⟨"1", "UserQuery", []⟩], []⟩ "hi" none
      = run_workflow noProviders distConst []
          ⟨[⟨"1", "UserQuery", []⟩], []⟩ "hi" none :=
  (unknown_node_type_silently_skipped noProviders distConst []
    ⟨"2", "Banana", []⟩ [⟨"1", "UserQuery", []⟩] [] "hi" none (by decide)).1

/-- C5 (counterexample): with an Output node configured for JSON and
source references, `run_workflow` still returns the raw stub string
from `call_llm_system` — no JSON envelope, no source list — and the
answer is byte-for-byte the same as with the text format: the Output
configuration is never applied. -/
theorem output_format_counterexample :
    run_workflow noProviders distConst [] outJsonGraph "q" none
      = "Test response: 'Query:\nq...'" ∧
    run_workflow noProviders distConst [] outJsonGraph "q" none
      = call_llm_system noProviders
          (final_prompt noProviders distConst [] outJsonGraph "q" none) none ∧
    run_workflow noProviders distConst [] outJsonGraph "q" none
      = run_workflow noProviders distConst [] outTextGraph "q" none := by
  exact ⟨rfl, rfl, rfl⟩

/-- C5 (amended): `run_workflow` returns the raw `call_llm_system`
result for the composed prompt; the Output node's configuration
(`format`, `includeSources`, `includeMetadata`) is never read, so the
returned string is identical for any two Output configurations and no
formatting, source list or metadata block is applied. -/
theorem output_config_never_applied
    (cfg : ProviderConfig) (dist : List ℚ → List ℚ → ℚ)
    (col : List ChromaEntry) (nodes : List WFNode) (edges : List WFEdge)
    (i : String) (c₁ c₂ : List (String × String)) (q : String)
    (cp : Option String) :
    run_workflow cfg dist col ⟨nodes ++ [⟨i, "Output", c₁⟩], edges⟩ q cp
      = call_llm_system cfg
          (final_prompt cfg dist col ⟨nodes ++ [⟨i, "Output", c₁⟩], edges⟩ q cp)
          none ∧
    run_workflow cfg dist col ⟨nodes ++ [⟨i, "Output", c₁⟩], edges⟩ q cp
      = run_workflow cfg dist col ⟨nodes ++ [⟨i, "Output", c₂⟩], edges⟩ q cp := by
  refine ⟨rfl, ?_⟩
  have hb : (("Output" : String) == "KnowledgeBase") = false := by decide
  unfold run_workflow final_prompt workflow_context
  simp [List.any_append, List.any_cons, hb]

/-- C6: with every generation provider disabled, `run_workflow` on the
graph `UserQuery -> LLMEngine -> Output` and query `2+2?` returns a
non-empty string that starts with the stub marker `Test response: ` and
echoes the composed prompt truncated to 100 characters. -/
theorem stub_fallback_on_disabled_providers :
    run_workflow noProviders distConst [] c6Graph "2+2?" none
      = "Test response: 'Query:\n2+2?...'" ∧
    run_workflow noProviders distConst [] c6Graph "2+2?" none ≠ "" ∧
    "Test response: ".data.isPrefixOf
      (run_workflow noProviders distConst [] c6Graph "2+2?" none).data = true ∧
    run_workflow noProviders distConst [] c6Graph "2+2?" none
      = "Test response: '"
        ++ strTake (final_prompt noProviders distConst [] c6Graph "2+2?" none) 100
        ++ "...'" := by
  refine ⟨rfl, by decide, by decide, rfl⟩

/-- C10: the answer of `run_workflow` is independent of the edge list
and of the ordering of the nodes — any two definitions whose node-type
lists are permutations of each other (same multiset of node types), run
with the same query and custom prompt, produce the same string, because
execution only asks whether some node has type KnowledgeBase and never
reads the edges. -/
theorem run_workflow_ignores_edges_and_order
    (cfg : ProviderConfig) (dist : List ℚ → List ℚ → ℚ)
    (col : List ChromaEntry) (n₁ n₂ : List WFNode) (e₁ e₂ : List WFEdge)
    (q : String) (cp : Option String)
    (h : List.Perm (n₁.map WFNode.type) (n₂.map WFNode.type)) :
    run_workflow cfg dist col ⟨n₁, e₁⟩ q cp
      = run_workflow cfg dist col ⟨n₂, e₂⟩ q cp := by
  have hany : (n₁.any fun n => n.type == "KnowledgeBase")
      = (n₂.any fun n => n.type == "KnowledgeBase") := by
    have h1 := perm_any (fun t => t == "KnowledgeBase") h
    rw [any_map_comp, any_map_comp] at h1
    exact h1
  unfold run_workflow final_prompt workflow_context
  rw [hany]

/-- Witness for C10: swapping the two nodes and dropping the edge list
leaves the answer unchanged. -/
theorem run_workflow_ignores_edges_and_order_witness :
    run_workflow noProviders distConst []
        ⟨[⟨"1", "UserQuery", []⟩, ⟨"2", "LLMEngine", []⟩], [⟨"e1", "1", "2"⟩]⟩
        "q" none
      = run_workflow noProviders distConst []
          ⟨[⟨"2", "LLMEngine", []⟩, ⟨"1", "UserQuery", []⟩], []⟩ "q" none :=
  run_workflow_ignores_edges_and_order noProviders distConst []
    [⟨"1", "UserQuery", []⟩, ⟨"2", "LLMEngine", []⟩]
    [⟨"2", "LLMEngine", []⟩, ⟨"1", "UserQuery", []⟩]
    [⟨"e1", "1", "2"⟩] [] "q" none (by decide)

end AIPlanet
